import Mathlib

set_option maxHeartbeats 1000000

/- Shallow embedding of the touch-gated recording core of the omiGlass
   firmware (`src/omiGlass/firmware/src/app.cpp`): the touch state machine
   (`handleTouchSensor`), the audio-level estimator and speech-activity
   classifier (`processAudio` / `detectSpeechActivity`), the bounded session
   buffer accumulation, the BLE audio send path (`sendAudioData`) and the
   chunked photo-upload branch of `loop_app`.  Machine integers are modelled
   as `Nat`/`Int`; C `float` arithmetic is idealised as exact `ℚ`/`ℝ`
   arithmetic (the `(int16_t)` cast of a float is modelled as truncation
   toward zero followed by narrowing to 16 bits with two's-complement wrap);
   `millis()` timestamps are `Nat` milliseconds with no wraparound. -/

/-- The `touch_state_t` enumeration used by `handleTouchSensor`. -/
inductive touch_state_t where
  | TOUCH_IDLE
  | TOUCH_DETECTED
  | TOUCH_RECORDING_ACTIVE
  | TOUCH_RECORDING_SILENCE
  | TOUCH_PROCESSING
deriving DecidableEq, Repr

open touch_state_t

/-- Timing/threshold constants that `app.cpp` takes from `config.h` (a file
not present in the repository sources); the development is parameterised over
their values, so every theorem holds for any instantiation. -/
structure TouchConfig where
  silenceThreshold : ℚ
  silenceDurationMs : ℕ
  minRecordingMs : ℕ
  activationTimeoutMs : ℕ
  debounceMs : ℕ
deriving DecidableEq, Repr

/-- The mutable globals of `app.cpp` that the touch/audio/photo core reads and
writes.  Byte buffers are modelled as the list of bytes written so far
(`touchAudioAccum` holds the current session's accumulated bytes, its length
tracked by the write cursor `touchAudioAccumIndex` exactly as in the source). -/
structure FwState where
  touchState : touch_state_t
  lastTouchTime : ℕ
  touchRecordingStartTime : ℕ
  lastSpeechTime : ℕ
  silenceStartTime : ℕ
  recordingCommand : Bool
  listeningForWakeWord : Bool
  isCapturingPhotos : Bool
  photoDataUploading : Bool
  connected : Bool
  audioCharPresent : Bool
  touchActivationMode : Bool
  audioBufferIndex : ℕ
  touchAudioAccumIndex : ℕ
  captureInterval : ℕ
  lastCaptureTime : ℕ
  sentPhotoBytes : ℕ
  sentPhotoFrames : ℕ
  touchAudioAccum : List ℕ
  bleAudioBuffer : List ℕ
deriving DecidableEq, Repr

/-- `TOUCH_AUDIO_MAX_BYTES` from `app.cpp` (192000 bytes, ~6 s of audio). -/
def TOUCH_AUDIO_MAX_BYTES : ℕ := 192000

/-- The chunking loop of `sendAudioData`: 200-byte chunks, each prefixed by a
two-byte little-endian frame index (`offset / chunkSize`). -/
def audioChunks (data : List ℕ) (frameIndex : ℕ) : List (List ℕ) :=
  if h : data = [] then []
  else
    (frameIndex % 256 :: frameIndex / 256 % 256 :: data.take 200)
      :: audioChunks (data.drop 200) (frameIndex + 1)
termination_by data.length
decreasing_by
  simp only [List.length_drop]
  exact Nat.sub_lt (List.length_pos.mpr h) (by norm_num)

/-- `sendAudioData` (app.cpp:1017): returns (as data actually notified over
BLE) the empty packet list when no client is connected or the audio
characteristic is absent, else the 200-byte chunking of `data`. -/
def sendAudioData (connected audioCharPresent : Bool) (data : List ℕ) : List (List ℕ) :=
  if !connected || !audioCharPresent then []
  else audioChunks data 0

/-- `handleTouchSensor` (app.cpp:1366): one tick of the touch recording state
machine.  Inputs: the current `millis()` value `now`, whether the touch sensor
reads below threshold (`touched`), and the current audio level.  Returns the
updated state together with the audio packets flushed over BLE on this tick. -/
def handleTouchSensor (cfg : TouchConfig) (s : FwState) (now : ℕ)
    (touched : Bool) (level : ℚ) : FwState × List (List ℕ) :=
  match s.touchState with
  | TOUCH_IDLE =>
    if touched ∧ cfg.debounceMs < now - s.lastTouchTime then
      ({ s with touchState := TOUCH_DETECTED, lastTouchTime := now }, [])
    else (s, [])
  | TOUCH_DETECTED =>
    if !touched then
      let s1 := { s with touchState := TOUCH_RECORDING_ACTIVE,
                         touchRecordingStartTime := now,
                         lastSpeechTime := now,
                         silenceStartTime := 0 }
      let s2 :=
        if !s1.recordingCommand then
          { s1 with recordingCommand := true,
                    audioBufferIndex := 0,
                    touchAudioAccumIndex := 0,
                    touchAudioAccum := [],
                    listeningForWakeWord := false }
        else s1
      (s2, [])
    else (s, [])
  | TOUCH_RECORDING_ACTIVE =>
    let s1 :=
      if cfg.silenceThreshold < level then
        { s with lastSpeechTime := now, silenceStartTime := 0 }
      else if s.silenceStartTime = 0 then
        { s with silenceStartTime := now, touchState := TOUCH_RECORDING_SILENCE }
      else s
    let s2 :=
      if cfg.activationTimeoutMs ≤ now - s1.touchRecordingStartTime then
        { s1 with touchState := TOUCH_PROCESSING }
      else s1
    (s2, [])
  | TOUCH_RECORDING_SILENCE =>
    let s1 :=
      if cfg.silenceThreshold < level then
        { s with touchState := TOUCH_RECORDING_ACTIVE,
                 lastSpeechTime := now, silenceStartTime := 0 }
      else
        if cfg.silenceDurationMs ≤ now - s.silenceStartTime then
          if cfg.minRecordingMs ≤ now - s.touchRecordingStartTime then
            { s with touchState := TOUCH_PROCESSING }
          else
            { s with touchState := TOUCH_RECORDING_ACTIVE, silenceStartTime := 0 }
        else s
    let s2 :=
      if cfg.activationTimeoutMs ≤ now - s1.touchRecordingStartTime then
        { s1 with touchState := TOUCH_PROCESSING }
      else s1
    (s2, [])
  | TOUCH_PROCESSING =>
    if s.recordingCommand then
      let packets :=
        if 0 < s.touchAudioAccumIndex then
          sendAudioData s.connected s.audioCharPresent
            (s.touchAudioAccum.take s.touchAudioAccumIndex)
        else if 0 < s.audioBufferIndex then
          sendAudioData s.connected s.audioCharPresent
            (s.bleAudioBuffer.take s.audioBufferIndex)
        else []
      let s1 := { s with recordingCommand := false,
                         audioBufferIndex := 0,
                         touchAudioAccumIndex := 0,
                         touchAudioAccum := [],
                         listeningForWakeWord := false }
      let s2 :=
        if !s1.isCapturingPhotos then
          { s1 with isCapturingPhotos := true, captureInterval := 0 }
        else s1
      let s3 :=
        if !s2.isCapturingPhotos then
          { s2 with touchState := TOUCH_IDLE, touchActivationMode := false }
        else s2
      (s3, packets)
    else
      let s3 :=
        if !s.isCapturingPhotos then
          { s with touchState := TOUCH_IDLE, touchActivationMode := false }
        else s
      (s3, [])

/-- The touch-recording accumulation step of `processAudio` (app.cpp:1120):
while touch recording is active, append the just-polled audio block to the
session buffer, bounded by the remaining capacity; once full, stop appending
(the block is the bytes of the fixed `audioBuffer`, `sizeof(audioBuffer)`
long). -/
def touchAudioAppend (s : FwState) (block : List ℕ) : FwState :=
  if s.recordingCommand ∧
      (s.touchState = TOUCH_RECORDING_ACTIVE ∨ s.touchState = TOUCH_RECORDING_SILENCE) then
    let bytesToCopy := min block.length (TOUCH_AUDIO_MAX_BYTES - s.touchAudioAccumIndex)
    if 0 < bytesToCopy then
      { s with touchAudioAccum := s.touchAudioAccum ++ block.take bytesToCopy,
               touchAudioAccumIndex := s.touchAudioAccumIndex + bytesToCopy }
    else s
  else s

/-- The photo-capture branch of `loop_app` (app.cpp:1252): if capture is
requested, no upload is in progress and a client is connected, and the
interval has elapsed (or is zero for single shot, which also clears the
request before capturing), attempt one capture; on success start the upload. -/
def photoCaptureBranch (s : FwState) (now : ℕ) (captureOk : Bool) : FwState :=
  if s.isCapturingPhotos ∧ ¬s.photoDataUploading ∧ s.connected then
    if s.captureInterval = 0 ∨ s.captureInterval ≤ now - s.lastCaptureTime then
      let s1 := if s.captureInterval = 0 then { s with isCapturingPhotos := false } else s
      if captureOk then
        { s1 with photoDataUploading := true,
                  sentPhotoBytes := 0,
                  sentPhotoFrames := 0,
                  lastCaptureTime := now }
      else s1
    else s
  else s

/-- One packet notified on the photo data characteristic: either a data chunk
(two index bytes plus `payloadLen` frame bytes) or the 0xFFFF end marker
(two bytes). -/
inductive PhotoPacket where
  | chunk (frameIndex payloadLen : ℕ)
  | endMarker
deriving DecidableEq, Repr

/-- Number of bytes a photo packet occupies on the wire. -/
def PhotoPacket.bytes : PhotoPacket → ℕ
  | .chunk _ payloadLen => payloadLen + 2
  | .endMarker => 2

/-- The photo-upload cursor of `loop_app` (frame length, bytes sent so far,
frames sent so far, upload-in-progress flag). -/
structure PhotoUploadState where
  fbLen : ℕ
  sentBytes : ℕ
  sentFrames : ℕ
  uploading : Bool
deriving DecidableEq, Repr

/-- The photo-upload branch of `loop_app` (app.cpp:1270): if an upload is in
progress, send exactly one bounded chunk of at most 200 payload bytes per
tick; when nothing remains, send the two-byte end marker and finish. -/
def photoUploadTick (s : PhotoUploadState) : PhotoUploadState × Option PhotoPacket :=
  if s.uploading then
    let remaining := s.fbLen - s.sentBytes
    if 0 < remaining then
      let bytesToCopy := if 200 < remaining then 200 else remaining
      ({ s with sentBytes := s.sentBytes + bytesToCopy,
                sentFrames := s.sentFrames + 1 },
       some (PhotoPacket.chunk s.sentFrames bytesToCopy))
    else
      ({ s with uploading := false }, some PhotoPacket.endMarker)
  else (s, none)

/-- The photo packets emitted over `n` consecutive scheduler ticks. -/
def photoUploadRun (s : PhotoUploadState) : ℕ → List PhotoPacket
  | 0 => []
  | n + 1 =>
    let r := photoUploadTick s
    r.2.toList ++ photoUploadRun r.1 n

/- -------------------------------------------------------------------------
   Audio level estimator (the unified level computation in `processAudio`,
   app.cpp:1082-1109).
   ------------------------------------------------------------------------- -/

/-- Truncation toward zero: the float-to-integral step of C's `(int16_t)`
cast of a float value (the 16-bit narrowing is `wrap16` below). -/
def truncQ (q : ℚ) : ℤ :=
  if 0 ≤ q then ⌊q⌋ else -⌊-q⌋

/-- Narrowing of an integer to `int16_t`: keep the low 16 bits, interpreted
in two's complement (e.g. 65536 narrows to 0). -/
def wrap16 (z : ℤ) : ℤ :=
  (z + 32768) % 65536 - 32768

/-- The DC offset of a block: its arithmetic mean (app.cpp:1085-1087). -/
def dcOffset (samples : List ℤ) : ℚ :=
  ((samples.sum : ℚ)) / (samples.length : ℚ)

/-- One processed sample (app.cpp:1094-1095): subtract the DC offset, apply
the fixed gain `GAIN = 16.0f`, and cast the float back to `int16_t` —
truncation toward zero, then narrowing to 16 bits. -/
def procSample (dc : ℚ) (s : ℤ) : ℤ :=
  wrap16 (truncQ ((((s : ℚ)) - dc) * 16))

/-- The accumulator of the level loop: sum of squares, running min/max and
count of samples surviving the noise gate (app.cpp:1089-1092). -/
structure AudioAcc where
  sumSquares : ℚ
  minSample : ℤ
  maxSample : ℤ
  validSamples : ℕ
deriving DecidableEq, Repr

/-- One iteration of the level loop (app.cpp:1093-1102): gate out processed
samples whose magnitude does not exceed `NOISE_GATE = 100`, accumulate
min/max, sum of squares and the valid count over the survivors. -/
def audioStep (dc : ℚ) (acc : AudioAcc) (s : ℤ) : AudioAcc :=
  let proc := procSample dc s
  if 100 < |proc| then
    { sumSquares := acc.sumSquares + (proc : ℚ) * (proc : ℚ)
      minSample := if proc < acc.minSample then proc else acc.minSample
      maxSample := if acc.maxSample < proc then proc else acc.maxSample
      validSamples := acc.validSamples + 1 }
  else acc

/-- The accumulator after processing a whole block, started from the source's
initial values (`sum_squares = 0`, `min = 32767`, `max = -32768`, `valid = 0`). -/
def audioAccum (samples : List ℤ) : AudioAcc :=
  samples.foldl (audioStep (dcOffset samples)) ⟨0, 32767, -32768, 0⟩

/-- `currentAudioLevel` after one block (app.cpp:1103-1108): RMS of the
surviving samples scaled to a percentage, or 0 when none survive the gate. -/
noncomputable def audioLevel (samples : List ℤ) : ℝ :=
  let acc := audioAccum samples
  if 0 < acc.validSamples then
    Real.sqrt ((acc.sumSquares : ℝ) / (acc.validSamples : ℝ)) / 32768 * 100
  else 0

/-- The peak update of `processAudio` (app.cpp:1109):
`if (currentAudioLevel > peakAudioLevel) peakAudioLevel = currentAudioLevel`. -/
noncomputable def peakUpdate (peak level : ℝ) : ℝ :=
  if peak < level then level else peak

/-- `peakAudioLevel` after processing a sequence of blocks. -/
noncomputable def processBlocksPeak (peak : ℝ) (blocks : List (List ℤ)) : ℝ :=
  blocks.foldl (fun p b => peakUpdate p (audioLevel b)) peak

/-- The processed samples of a block that survive the noise gate. -/
def validProcs (samples : List ℤ) : List ℤ :=
  (samples.map (procSample (dcOffset samples))).filter (fun p => decide (100 < |p|))

/-- The level formula of spec §4.1 stated directly over the gated processed
samples, `level = sqrt(sumSquares / validCount) / 32768 * 100`, or 0 if no
valid samples — here over the int16-narrowed processed samples, which is the
amended reading forced by the source's `(int16_t)` cast; to be compared with
the source-derived `audioLevel`. -/
noncomputable def levelSpec (samples : List ℤ) : ℝ :=
  let v := validProcs samples
  if v = [] then 0
  else
    Real.sqrt ((((v.map (fun p => (p : ℚ) * p)).sum : ℚ) : ℝ) / (v.length : ℝ)) / 32768 * 100

/-- Modelled from the spec: the original claim's reading of a processed
sample — DC offset removed and the fixed gain applied — with no 16-bit
narrowing. -/
def procSampleNoWrap (dc : ℚ) (s : ℤ) : ℤ :=
  truncQ ((((s : ℚ)) - dc) * 16)

/-- Modelled from the spec: the gate survivors under the original claim's
un-narrowed processed samples. -/
def validProcsNoWrap (samples : List ℤ) : List ℤ :=
  (samples.map (procSampleNoWrap (dcOffset samples))).filter (fun p => decide (100 < |p|))

/-- Modelled from the spec: the level formula exactly as the original claim
states it, over gain-multiplied samples with no 16-bit narrowing. -/
noncomputable def levelSpecNoWrap (samples : List ℤ) : ℝ :=
  let v := validProcsNoWrap samples
  if v = [] then 0
  else
    Real.sqrt ((((v.map (fun p => (p : ℚ) * p)).sum : ℚ) : ℝ) / (v.length : ℝ)) / 32768 * 100

/- -------------------------------------------------------------------------
   Speech activity classifier (`detectSpeechActivity`, app.cpp:907-942).
   ------------------------------------------------------------------------- -/

/-- The three coarse spectral bands accumulated from successive-sample
absolute differences. -/
structure Bands where
  low : ℚ
  mid : ℚ
  high : ℚ
deriving DecidableEq, Repr

/-- One iteration of the band loop (app.cpp:926-934): the absolute difference
of samples `i-1` and `i` is credited to the low band for `i < n/12`, the mid
band for `i < n/6`, and the high band otherwise. -/
def bandStep (samples : List ℤ) (n : ℕ) (b : Bands) (i : ℕ) : Bands :=
  let d : ℚ := |((samples.getD i 0 : ℤ) : ℚ) - ((samples.getD (i - 1) 0 : ℤ) : ℚ)|
  if i < n / 12 then { b with low := b.low + d }
  else if i < n / 6 then { b with mid := b.mid + d }
  else { b with high := b.high + d }

/-- The band energies of a block: the loop runs over `i = 1 .. n/4 - 1`. -/
def bandEnergies (samples : List ℤ) : Bands :=
  (List.range' 1 (samples.length / 4 - 1)).foldl
    (bandStep samples samples.length) ⟨0, 0, 0⟩

/-- Mean-square energy of the raw block (app.cpp:909-913). -/
def meanSquareEnergy (samples : List ℤ) : ℚ :=
  ((((samples.map (fun s => s * s)).sum : ℤ) : ℚ)) / (samples.length : ℚ)

/-- Total "spectral energy" of the three bands (app.cpp:937). -/
def spectralTotal (samples : List ℤ) : ℚ :=
  (bandEnergies samples).low + (bandEnergies samples).mid + (bandEnergies samples).high

/-- Mid-band fraction of the total spectral energy (app.cpp:940). -/
def midBandFraction (samples : List ℤ) : ℚ :=
  (bandEnergies samples).mid / spectralTotal samples

/-- `detectSpeechActivity` (app.cpp:907): noise-floor rejection on raw
mean-square energy, quiet-spectrum rejection on the band total, then the
mid-band-fraction test `0.2 < midRatio < 0.8`. -/
def detectSpeechActivity (samples : List ℤ) : Bool :=
  if meanSquareEnergy samples < 20000000 then false
  else if spectralTotal samples < 5000 then false
  else decide ((0.2 : ℚ) < midBandFraction samples ∧ midBandFraction samples < (0.8 : ℚ))

/- -------------------------------------------------------------------------
   Example configuration and state used by concrete witnesses.
   ------------------------------------------------------------------------- -/

/-- A representative configuration: silence threshold 10 %, silence duration
4 s, minimum recording floor 2 s, safety ceiling 30 s, debounce 50 ms. -/
def cfgEx : TouchConfig := ⟨10, 4000, 2000, 30000, 50⟩

/-- A baseline firmware state (idle, nothing buffered, client connected). -/
def baseState : FwState :=
  ⟨TOUCH_IDLE, 0, 0, 0, 0, false, false, false, false, true, true, true,
   0, 0, 0, 0, 0, 0, [], []⟩

/- -------------------------------------------------------------------------
   Claims C1, C2, C4: the touch recording state machine.
   ------------------------------------------------------------------------- -/

/-- C1 (counterexample): the claim says that when the silence duration is met
but the minimum recording floor is not, the machine remains in
RecordingSilence.  At this concrete input (silence duration 2 s satisfied,
minimum floor 10 s not yet reached, safety ceiling far away) the code instead
moves back to RecordingActive. -/
theorem C1_counterexample :
    let cfg : TouchConfig := ⟨10, 2000, 10000, 30000, 50⟩
    let s : FwState := { baseState with touchState := TOUCH_RECORDING_SILENCE,
                                        touchRecordingStartTime := 0,
                                        silenceStartTime := 1000,
                                        recordingCommand := true }
    let r := (handleTouchSensor cfg s 3000 false 0).1
    cfg.silenceDurationMs ≤ 3000 - s.silenceStartTime ∧
    3000 - s.touchRecordingStartTime < cfg.minRecordingMs ∧
    r.touchState ≠ TOUCH_RECORDING_SILENCE ∧
    r.touchState = TOUCH_RECORDING_ACTIVE := by
  decide

/-- C1 (amended): for a tick in RecordingSilence with level at or below the
silence threshold and the safety ceiling not yet reached, the machine
transitions to Processing exactly when the silence period has lasted at least
the configured silence duration AND the elapsed time since recording start is
at least the minimum recording floor; if the silence duration is met but the
floor is not, the machine moves back to RecordingActive with the silence
timer reset (recording continues). -/
theorem C1_amended_silence_transition (cfg : TouchConfig) (s : FwState) (now : ℕ)
    (touched : Bool) (level : ℚ)
    (hst : s.touchState = TOUCH_RECORDING_SILENCE)
    (hlev : level ≤ cfg.silenceThreshold)
    (hceil : now - s.touchRecordingStartTime < cfg.activationTimeoutMs) :
    (((handleTouchSensor cfg s now touched level).1).touchState = TOUCH_PROCESSING ↔
      cfg.silenceDurationMs ≤ now - s.silenceStartTime ∧
      cfg.minRecordingMs ≤ now - s.touchRecordingStartTime) ∧
    (cfg.silenceDurationMs ≤ now - s.silenceStartTime →
      now - s.touchRecordingStartTime < cfg.minRecordingMs →
      ((handleTouchSensor cfg s now touched level).1).touchState = TOUCH_RECORDING_ACTIVE ∧
      ((handleTouchSensor cfg s now touched level).1).silenceStartTime = 0) := by
  have hnl : ¬ cfg.silenceThreshold < level := not_lt.mpr hlev
  have hnto : ¬ cfg.activationTimeoutMs ≤ now - s.touchRecordingStartTime := not_le.mpr hceil
  simp only [handleTouchSensor, hst]
  split_ifs <;> simp_all

/-- A state 1.5 s into a recording whose last 4.4 s (since ms 100) have been
silent, used as the C1 witness input. -/
def sC1w : FwState :=
  { baseState with touchState := TOUCH_RECORDING_SILENCE,
                   touchRecordingStartTime := 3000,
                   silenceStartTime := 100,
                   recordingCommand := true }

/-- C1 (amended, witness): concrete instantiation — silence lasted 4.4 s with
only 1.5 s total recording (floor 2 s), so the machine goes back to
RecordingActive with the silence timer cleared. -/
theorem C1_amended_witness :
    sC1w.touchState = TOUCH_RECORDING_SILENCE ∧
    ((0 : ℚ) ≤ cfgEx.silenceThreshold) ∧
    (4500 - sC1w.touchRecordingStartTime < cfgEx.activationTimeoutMs) ∧
    (((((handleTouchSensor cfgEx sC1w 4500 false 0).1).touchState = TOUCH_PROCESSING ↔
        cfgEx.silenceDurationMs ≤ 4500 - sC1w.silenceStartTime ∧
        cfgEx.minRecordingMs ≤ 4500 - sC1w.touchRecordingStartTime) ∧
      (cfgEx.silenceDurationMs ≤ 4500 - sC1w.silenceStartTime →
        4500 - sC1w.touchRecordingStartTime < cfgEx.minRecordingMs →
        ((handleTouchSensor cfgEx sC1w 4500 false 0).1).touchState = TOUCH_RECORDING_ACTIVE ∧
        ((handleTouchSensor cfgEx sC1w 4500 false 0).1).silenceStartTime = 0))) :=
  ⟨by decide, by norm_num [cfgEx], by decide,
   C1_amended_silence_transition cfgEx sC1w 4500 false 0 (by decide)
     (by norm_num [cfgEx, sC1w, baseState]) (by decide)⟩

/-- C2: in RecordingActive or RecordingSilence, once the elapsed time since
recording start has reached the safety ceiling, this tick transitions to
Processing regardless of the silence state. -/
theorem C2_safety_ceiling (cfg : TouchConfig) (s : FwState) (now : ℕ)
    (touched : Bool) (level : ℚ)
    (hst : s.touchState = TOUCH_RECORDING_ACTIVE ∨ s.touchState = TOUCH_RECORDING_SILENCE)
    (hto : cfg.activationTimeoutMs ≤ now - s.touchRecordingStartTime) :
    ((handleTouchSensor cfg s now touched level).1).touchState = TOUCH_PROCESSING := by
  rcases hst with h | h <;>
    (simp only [handleTouchSensor, h]; split_ifs <;> simp_all)

/-- A state 30 s into an active recording, used as the C2 witness input. -/
def sC2w : FwState :=
  { baseState with touchState := TOUCH_RECORDING_ACTIVE,
                   touchRecordingStartTime := 0,
                   recordingCommand := true }

/-- C2 (witness): concrete instantiation at the ceiling, in RecordingActive. -/
theorem C2_witness :
    (sC2w.touchState = TOUCH_RECORDING_ACTIVE ∨
        sC2w.touchState = TOUCH_RECORDING_SILENCE) ∧
    cfgEx.activationTimeoutMs ≤ 30000 - sC2w.touchRecordingStartTime ∧
    ((handleTouchSensor cfgEx sC2w 30000 false 50).1).touchState = TOUCH_PROCESSING :=
  ⟨Or.inl (by decide), by decide,
   C2_safety_ceiling cfgEx sC2w 30000 false 50 (Or.inl (by decide)) (by decide)⟩

/-- C4 (counterexample): the claim says every Detected → RecordingActive
transition resets the session cursor and suppresses wake-word listening, but
when `recordingCommand` is already set those side effects are skipped: here
the cursor stays 5 and `listeningForWakeWord` stays true across the
transition. -/
theorem C4_counterexample :
    let s : FwState := { baseState with touchState := TOUCH_DETECTED,
                                        recordingCommand := true,
                                        listeningForWakeWord := true,
                                        touchAudioAccumIndex := 5,
                                        touchAudioAccum := [1, 2, 3, 4, 5] }
    let r := (handleTouchSensor cfgEx s 1000 false 0).1
    r.touchState = TOUCH_RECORDING_ACTIVE ∧
    r.touchAudioAccumIndex ≠ 0 ∧
    r.listeningForWakeWord = true := by
  decide

/-- C4 (amended): on a Detected → RecordingActive transition (touch released)
where recording is not already marked in progress (`recordingCommand` false),
the machine resets the session buffer write cursor to 0, marks recording
active, and suppresses the wake-word listening path; if `recordingCommand`
was already set the transition still occurs but those side effects are
skipped. -/
theorem C4_amended_release_side_effects (cfg : TouchConfig) (s : FwState) (now : ℕ)
    (level : ℚ)
    (hst : s.touchState = TOUCH_DETECTED)
    (hrc : s.recordingCommand = false) :
    let r := (handleTouchSensor cfg s now false level).1
    r.touchState = TOUCH_RECORDING_ACTIVE ∧
    r.touchAudioAccumIndex = 0 ∧
    r.recordingCommand = true ∧
    r.listeningForWakeWord = false := by
  simp only [handleTouchSensor, hst]
  simp [hrc]

/-- A touch-detected state with no recording in progress, the C4 witness
input. -/
def sC4w : FwState := { baseState with touchState := TOUCH_DETECTED }

/-- C4 (amended, witness): concrete release with `recordingCommand` clear. -/
theorem C4_amended_witness :
    sC4w.touchState = TOUCH_DETECTED ∧
    sC4w.recordingCommand = false ∧
    (let r := (handleTouchSensor cfgEx sC4w 2000 false 0).1
     r.touchState = TOUCH_RECORDING_ACTIVE ∧
     r.touchAudioAccumIndex = 0 ∧
     r.recordingCommand = true ∧
     r.listeningForWakeWord = false) :=
  ⟨by decide, by decide,
   C4_amended_release_side_effects cfgEx sC4w 2000 0 (by decide) (by decide)⟩

/- -------------------------------------------------------------------------
   Claim C5: bounded photo-upload chunking.
   ------------------------------------------------------------------------- -/

/-- C5: while a photo upload is in progress, each scheduler tick sends exactly
one chunk of at most 200 payload bytes (never the whole frame); a 1000-byte
frame drains in exactly 5 data chunks followed by the 2-byte end marker on a
later tick (and a further tick emits nothing). -/
theorem C5_photo_chunking (s : PhotoUploadState)
    (h1 : s.uploading = true) (h2 : 0 < s.fbLen - s.sentBytes) :
    (photoUploadTick s).2 =
        some (PhotoPacket.chunk s.sentFrames (min 200 (s.fbLen - s.sentBytes))) ∧
    min 200 (s.fbLen - s.sentBytes) ≤ 200 ∧
    photoUploadRun ⟨1000, 0, 0, true⟩ 7 =
      [PhotoPacket.chunk 0 200, PhotoPacket.chunk 1 200, PhotoPacket.chunk 2 200,
       PhotoPacket.chunk 3 200, PhotoPacket.chunk 4 200, PhotoPacket.endMarker] := by
  refine ⟨?_, min_le_left _ _, by decide⟩
  have he : (if 200 < s.fbLen - s.sentBytes then 200 else s.fbLen - s.sentBytes)
      = min 200 (s.fbLen - s.sentBytes) := by
    split_ifs <;> omega
  simp only [photoUploadTick, h1, if_true, if_pos h2, he]

/-- The in-progress 1000-byte upload used as the C5 witness input. -/
def puC5w : PhotoUploadState := ⟨1000, 0, 0, true⟩

/-- C5 (witness): concrete instantiation at the start of a 1000-byte frame. -/
theorem C5_witness :
    puC5w.uploading = true ∧
    0 < puC5w.fbLen - puC5w.sentBytes ∧
    ((photoUploadTick puC5w).2 =
        some (PhotoPacket.chunk puC5w.sentFrames (min 200 (puC5w.fbLen - puC5w.sentBytes))) ∧
      min 200 (puC5w.fbLen - puC5w.sentBytes) ≤ 200 ∧
      photoUploadRun ⟨1000, 0, 0, true⟩ 7 =
        [PhotoPacket.chunk 0 200, PhotoPacket.chunk 1 200, PhotoPacket.chunk 2 200,
         PhotoPacket.chunk 3 200, PhotoPacket.chunk 4 200, PhotoPacket.endMarker]) :=
  ⟨rfl, by decide, C5_photo_chunking puC5w rfl (by decide)⟩

/- -------------------------------------------------------------------------
   Claim C6: session buffer append is bounded.
   ------------------------------------------------------------------------- -/

/-- C6: the per-tick session-buffer append copies at most the remaining
capacity, so the cursor never exceeds `TOUCH_AUDIO_MAX_BYTES`; at capacity
the append is a no-op, and the append never touches the recording state or
any timer. -/
theorem C6_session_buffer_bound (s : FwState) (block : List ℕ)
    (hc : s.touchAudioAccumIndex ≤ TOUCH_AUDIO_MAX_BYTES) :
    let r := touchAudioAppend s block
    r.touchAudioAccumIndex ≤ TOUCH_AUDIO_MAX_BYTES ∧
    r.touchAudioAccumIndex - s.touchAudioAccumIndex
        ≤ TOUCH_AUDIO_MAX_BYTES - s.touchAudioAccumIndex ∧
    (s.touchAudioAccumIndex = TOUCH_AUDIO_MAX_BYTES → r = s) ∧
    r.touchState = s.touchState ∧
    r.touchRecordingStartTime = s.touchRecordingStartTime ∧
    r.silenceStartTime = s.silenceStartTime ∧
    r.recordingCommand = s.recordingCommand := by
  simp only [touchAudioAppend]
  split_ifs <;> (simp_all; try omega)

/-- An active-recording state with an empty session buffer, the C6 witness
input. -/
def sC6w : FwState :=
  { baseState with touchState := TOUCH_RECORDING_ACTIVE, recordingCommand := true }

/-- C6 (witness): concrete append of a 3-byte block to an empty session. -/
theorem C6_witness :
    sC6w.touchAudioAccumIndex ≤ TOUCH_AUDIO_MAX_BYTES ∧
    (let r := touchAudioAppend sC6w [1, 2, 3]
     r.touchAudioAccumIndex ≤ TOUCH_AUDIO_MAX_BYTES ∧
     r.touchAudioAccumIndex - sC6w.touchAudioAccumIndex
         ≤ TOUCH_AUDIO_MAX_BYTES - sC6w.touchAudioAccumIndex ∧
     (sC6w.touchAudioAccumIndex = TOUCH_AUDIO_MAX_BYTES → r = sC6w) ∧
     r.touchState = sC6w.touchState ∧
     r.touchRecordingStartTime = sC6w.touchRecordingStartTime ∧
     r.silenceStartTime = sC6w.silenceStartTime ∧
     r.recordingCommand = sC6w.recordingCommand) :=
  ⟨by decide, C6_session_buffer_bound sC6w [1, 2, 3] (by decide)⟩

/- -------------------------------------------------------------------------
   Claim C8: photo capture failure still completes the cycle.
   ------------------------------------------------------------------------- -/

/-- C8: entering Processing triggers a single photo capture; if it fails
(no frame buffer), no photo upload starts, the capture is not retried, and
the machine still returns to Idle ready for the next touch.  The tick order
follows `loop_app`: `handleTouchSensor` (flush, request capture) happens
before the capture branch of the same tick; the next tick's
`handleTouchSensor` then resets to Idle. -/
theorem C8_capture_failure_recovery (cfg : TouchConfig) (s : FwState)
    (now1 now2 : ℕ) (t1 t2 : Bool) (l1 l2 : ℚ)
    (hst : s.touchState = TOUCH_PROCESSING)
    (hrc : s.recordingCommand = true)
    (hcap : s.isCapturingPhotos = false)
    (hupl : s.photoDataUploading = false)
    (hconn : s.connected = true) :
    let s1 := (handleTouchSensor cfg s now1 t1 l1).1
    let s2 := photoCaptureBranch s1 now1 false
    let s3 := (handleTouchSensor cfg s2 now2 t2 l2).1
    s2.isCapturingPhotos = false ∧
    s2.photoDataUploading = false ∧
    s3.touchState = TOUCH_IDLE ∧
    s3.photoDataUploading = false ∧
    (∀ now3 ok, photoCaptureBranch s3 now3 ok = s3) := by
  obtain ⟨ts, a1, a2, a3, a4, rc, lw, icp, pdu, con, acp, tam,
          abi, taai, ci, lct, spb, spf, taa, bab⟩ := s
  simp only at hst hrc hcap hupl hconn
  subst hst hrc hcap hupl hconn
  simp [handleTouchSensor, photoCaptureBranch]

/-- A just-finished recording session about to be flushed, the C8 witness
input. -/
def sC8w : FwState :=
  { baseState with touchState := TOUCH_PROCESSING, recordingCommand := true }

/-- C8 (witness): concrete failing capture after a flush, returning to Idle. -/
theorem C8_witness :
    sC8w.touchState = TOUCH_PROCESSING ∧
    sC8w.recordingCommand = true ∧
    sC8w.isCapturingPhotos = false ∧
    sC8w.photoDataUploading = false ∧
    sC8w.connected = true ∧
    (let s1 := (handleTouchSensor cfgEx sC8w 5000 false 0).1
     let s2 := photoCaptureBranch s1 5000 false
     let s3 := (handleTouchSensor cfgEx s2 5100 false 0).1
     s2.isCapturingPhotos = false ∧
     s2.photoDataUploading = false ∧
     s3.touchState = TOUCH_IDLE ∧
     s3.photoDataUploading = false ∧
     (∀ now3 ok, photoCaptureBranch s3 now3 ok = s3)) :=
  ⟨rfl, rfl, rfl, rfl, rfl,
   C8_capture_failure_recovery cfgEx sC8w 5000 5100 false false 0 0 rfl rfl rfl rfl rfl⟩

/- -------------------------------------------------------------------------
   Claim C10: disconnected flush silently discards the session.
   ------------------------------------------------------------------------- -/

/-- C10: when no BLE client is connected (or the audio characteristic is
absent) at the moment Processing flushes the session, no audio packets are
transmitted, yet the session cursor is still reset to 0 — the accumulated
recording is discarded without any error. -/
theorem C10_silent_discard (cfg : TouchConfig) (s : FwState) (now : ℕ)
    (touched : Bool) (level : ℚ)
    (hst : s.touchState = TOUCH_PROCESSING)
    (hrc : s.recordingCommand = true)
    (hoff : s.connected = false ∨ s.audioCharPresent = false)
    (hdata : 0 < s.touchAudioAccumIndex) :
    (handleTouchSensor cfg s now touched level).2 = [] ∧
    ((handleTouchSensor cfg s now touched level).1).touchAudioAccumIndex = 0 := by
  obtain ⟨ts, a1, a2, a3, a4, rc, lw, icp, pdu, con, acp, tam,
          abi, taai, ci, lct, spb, spf, taa, bab⟩ := s
  simp only at hst hrc hdata
  subst hst hrc
  rcases hoff with h | h <;> simp only at h <;> subst h <;>
    (simp [handleTouchSensor, sendAudioData, hdata]; split_ifs <;> rfl)

/-- A finished session with 4 buffered bytes and no BLE client, the C10
witness input. -/
def sC10w : FwState :=
  { baseState with touchState := TOUCH_PROCESSING, recordingCommand := true,
                   connected := false, touchAudioAccumIndex := 4,
                   touchAudioAccum := [9, 9, 9, 9] }

/-- C10 (witness): concrete disconnected flush — nothing sent, cursor reset. -/
theorem C10_witness :
    sC10w.touchState = TOUCH_PROCESSING ∧
    sC10w.recordingCommand = true ∧
    (sC10w.connected = false ∨ sC10w.audioCharPresent = false) ∧
    0 < sC10w.touchAudioAccumIndex ∧
    ((handleTouchSensor cfgEx sC10w 9000 false 0).2 = [] ∧
     ((handleTouchSensor cfgEx sC10w 9000 false 0).1).touchAudioAccumIndex = 0) :=
  ⟨rfl, rfl, Or.inl rfl, by decide,
   C10_silent_discard cfgEx sC10w 9000 false 0 rfl rfl (Or.inl rfl) (by decide)⟩

/- -------------------------------------------------------------------------
   Claim C9: the peak level is monotonically non-decreasing.
   ------------------------------------------------------------------------- -/

/-- The source's conditional peak update is exactly `max`. -/
lemma peakUpdate_eq_max (p l : ℝ) : peakUpdate p l = max p l := by
  unfold peakUpdate
  rcases lt_or_ge p l with h | h
  · rw [if_pos h, max_eq_right h.le]
  · rw [if_neg (not_lt.mpr h), max_eq_left h]

/-- One peak update never decreases the peak. -/
lemma peak_le_peakUpdate (p l : ℝ) : p ≤ peakUpdate p l := by
  unfold peakUpdate
  split_ifs with h
  · exact h.le
  · exact le_refl p

/-- C9: after each block the new peak equals `max(old peak, current level)`,
and over any sequence of processed blocks the peak is monotonically
non-decreasing (`processAudio` contains no reset path for the peak). -/
theorem C9_peak_monotone :
    (∀ (peak : ℝ) (block : List ℤ),
        peakUpdate peak (audioLevel block) = max peak (audioLevel block)) ∧
    (∀ (peak : ℝ) (blocks : List (List ℤ)), peak ≤ processBlocksPeak peak blocks) := by
  constructor
  · intro p b
    exact peakUpdate_eq_max p (audioLevel b)
  · intro p blocks
    induction blocks generalizing p with
    | nil => simp [processBlocksPeak]
    | cons b bs ih =>
      calc p ≤ peakUpdate p (audioLevel b) := peak_le_peakUpdate _ _
        _ ≤ processBlocksPeak (peakUpdate p (audioLevel b)) bs := ih _
        _ = processBlocksPeak p (b :: bs) := by simp [processBlocksPeak]

/- -------------------------------------------------------------------------
   Claim C7: the speech activity classifier.
   ------------------------------------------------------------------------- -/

/-- A 48-sample block riding on a large DC level: its raw mean-square energy
clears the noise floor and its mid-band fraction is 5/12 ∈ (0.2, 0.8), yet its
total spectral energy (4800) is below the 5000 cutoff the claim omits. -/
def blk48 : List ℤ :=
  [5000, 5000, 6000, 5000, 5000, 5000, 6000, 5000, 5000, 5400, 5000, 5000,
   5000, 5000, 5000, 5000, 5000, 5000, 5000, 5000, 5000, 5000, 5000, 5000,
   5000, 5000, 5000, 5000, 5000, 5000, 5000, 5000, 5000, 5000, 5000, 5000,
   5000, 5000, 5000, 5000, 5000, 5000, 5000, 5000, 5000, 5000, 5000, 5000]

/-- C7 (counterexample): the claim says that once the energy floor is met the
classifier returns true exactly when the mid-band fraction is in (0.2, 0.8);
on `blk48` the energy floor is met and the fraction is in range, yet the code
returns false (its `totalSpectralEnergy < 5000` branch, absent from the
claim). -/
theorem C7_counterexample :
    detectSpeechActivity blk48 = false ∧
    20000000 ≤ meanSquareEnergy blk48 ∧
    (0.2 : ℚ) < midBandFraction blk48 ∧ midBandFraction blk48 < (0.8 : ℚ) := by
  have hr : List.range' 1 (blk48.length / 4 - 1) = [1, 2, 3, 4, 5, 6, 7, 8, 9, 10, 11] := by
    decide
  have hb : bandEnergies blk48 = ⟨2000, 2000, 800⟩ := by
    simp only [bandEnergies, hr]
    norm_num [bandStep, blk48]
  have h1 : meanSquareEnergy blk48 = 25545000 := by
    norm_num [meanSquareEnergy, blk48]
  have ht : spectralTotal blk48 = 4800 := by
    simp only [spectralTotal, hb]
    norm_num
  have hm : midBandFraction blk48 = 5 / 12 := by
    simp only [midBandFraction, spectralTotal, hb]
    norm_num
  refine ⟨?_, ?_, ?_, ?_⟩
  · simp only [detectSpeechActivity, h1, ht]
    norm_num
  · rw [h1]; norm_num
  · rw [hm]; norm_num
  · rw [hm]; norm_num

/-- C7 (amended): for every non-empty block the classifier returns false when
the raw mean-square energy is below the fixed floor, and otherwise returns
true exactly when the total 3-band spectral energy is at least 5000 AND the
mid-band fraction lies strictly between 0.2 and 0.8. -/
theorem C7_amended_speech_classifier (samples : List ℤ)
    (_hn : 0 < samples.length) :
    detectSpeechActivity samples = true ↔
      20000000 ≤ meanSquareEnergy samples ∧
      5000 ≤ spectralTotal samples ∧
      (0.2 : ℚ) < midBandFraction samples ∧ midBandFraction samples < (0.8 : ℚ) := by
  unfold detectSpeechActivity
  split_ifs with h1 h2
  · simp only [Bool.false_eq_true, false_iff]
    rintro ⟨hge, -⟩
    exact absurd h1 (not_lt.mpr hge)
  · simp only [Bool.false_eq_true, false_iff]
    rintro ⟨-, hge, -⟩
    exact absurd h2 (not_lt.mpr hge)
  · simp only [decide_eq_true_eq]
    constructor
    · rintro ⟨ha, hb⟩
      exact ⟨not_lt.mp h1, not_lt.mp h2, ha, hb⟩
    · rintro ⟨-, -, ha, hb⟩
      exact ⟨ha, hb⟩

/-- C7 (amended, witness): concrete instantiation on the one-sample zero
block, whose energy is below the floor so the classifier refuses it. -/
theorem C7_amended_witness :
    0 < ([0] : List ℤ).length ∧
    (detectSpeechActivity [0] = true ↔
      20000000 ≤ meanSquareEnergy [0] ∧
      5000 ≤ spectralTotal [0] ∧
      (0.2 : ℚ) < midBandFraction [0] ∧ midBandFraction [0] < (0.8 : ℚ)) :=
  ⟨by decide, C7_amended_speech_classifier [0] (by decide)⟩

/- -------------------------------------------------------------------------
   Claim C3: the audio level formula.
   ------------------------------------------------------------------------- -/

/-- The level-loop accumulator computes exactly the length and sum of squares
of the gated processed samples. -/
lemma audioStep_foldl (dc : ℚ) (l : List ℤ) :
    ∀ a : AudioAcc,
      ((l.foldl (audioStep dc) a).validSamples
          = a.validSamples
            + ((l.map (procSample dc)).filter (fun p => decide (100 < |p|))).length) ∧
      ((l.foldl (audioStep dc) a).sumSquares
          = a.sumSquares
            + (((l.map (procSample dc)).filter
                  (fun p => decide (100 < |p|))).map (fun p => (p : ℚ) * p)).sum) := by
  induction l with
  | nil => intro a; simp
  | cons x xs ih =>
    intro a
    obtain ⟨ih1, ih2⟩ := ih (audioStep dc a x)
    by_cases h : (100 : ℤ) < |procSample dc x|
    · constructor
      · simp only [List.foldl_cons, ih1]
        simp [audioStep, h, List.filter_cons]
        omega
      · simp only [List.foldl_cons, ih2]
        simp [audioStep, h, List.filter_cons]
        ring
    · constructor
      · simp only [List.foldl_cons, ih1]
        simp [audioStep, h, List.filter_cons]
      · simp only [List.foldl_cons, ih2]
        simp [audioStep, h, List.filter_cons]

/-- `valid_samples` after a block equals the number of gated samples. -/
lemma audioAccum_valid (samples : List ℤ) :
    (audioAccum samples).validSamples = (validProcs samples).length := by
  have h := (audioStep_foldl (dcOffset samples) samples ⟨0, 32767, -32768, 0⟩).1
  simpa [audioAccum, validProcs] using h

/-- `sum_squares` after a block equals the sum of squares of gated samples. -/
lemma audioAccum_sumsq (samples : List ℤ) :
    (audioAccum samples).sumSquares
      = ((validProcs samples).map (fun p => (p : ℚ) * p)).sum := by
  have h := (audioStep_foldl (dcOffset samples) samples ⟨0, 32767, -32768, 0⟩).2
  simpa [audioAccum, validProcs] using h

/-- The source loop computes exactly the level formula of the spec. -/
lemma audioLevel_eq_levelSpec (samples : List ℤ) :
    audioLevel samples = levelSpec samples := by
  simp only [audioLevel, levelSpec, audioAccum_valid, audioAccum_sumsq]
  by_cases hv : validProcs samples = []
  · simp [hv]
  · rw [if_pos (List.length_pos.mpr hv), if_neg hv]

/-- An all-zero block has no gated samples. -/
lemma validProcs_all_zero (samples : List ℤ) (hz : ∀ x ∈ samples, x = 0) :
    validProcs samples = [] := by
  unfold validProcs
  rw [List.filter_eq_nil_iff]
  intro p hp
  obtain ⟨x, hx, rfl⟩ := List.mem_map.mp hp
  have hx0 : x = 0 := hz x hx
  subst hx0
  have hsum : samples.sum = 0 := List.sum_eq_zero hz
  have hdc : dcOffset samples = 0 := by simp [dcOffset, hsum]
  rw [hdc]
  norm_num [procSample, truncQ, wrap16]

/-- Integer-valued rationals truncate to themselves. -/
lemma truncQ_intCast (n : ℤ) : truncQ ((n : ℤ) : ℚ) = n := by
  unfold truncQ
  split_ifs with h
  · exact_mod_cast Int.floor_intCast n
  · rw [show -((n : ℤ) : ℚ) = (((-n : ℤ)) : ℚ) by push_cast; ring, Int.floor_intCast]
    omega

/-- C3 (counterexample): the claim's formula applies the gain with no 16-bit
narrowing, but the source casts the gained float to `int16_t`
(app.cpp:1095).  On the block `[4096, -4096]` the gained samples ±65536
narrow to 0 in the code, are gated out, and the level is 0 — while the
claim's un-narrowed formula keeps them as gate survivors and yields level
200. -/
theorem C3_counterexample :
    audioLevel [4096, -4096] = 0 ∧
    levelSpecNoWrap [4096, -4096] = 200 ∧
    audioLevel [4096, -4096] ≠ levelSpecNoWrap [4096, -4096] := by
  have hdc : dcOffset [4096, -4096] = 0 := by norm_num [dcOffset]
  have hq1 : (((4096 : ℤ) : ℚ) - 0) * 16 = ((65536 : ℤ) : ℚ) := by push_cast; norm_num
  have hq2 : (((-4096 : ℤ) : ℚ) - 0) * 16 = ((-65536 : ℤ) : ℚ) := by push_cast; norm_num
  have hp1 : procSample 0 4096 = 0 := by
    simp only [procSample, hq1, truncQ_intCast]
    decide
  have hp2 : procSample 0 (-4096) = 0 := by
    simp only [procSample, hq2, truncQ_intCast]
    decide
  have hvp : validProcs [4096, -4096] = [] := by
    simp only [validProcs, hdc, List.map_cons, List.map_nil, hp1, hp2]
    decide
  have hl0 : audioLevel [4096, -4096] = 0 := by
    rw [audioLevel_eq_levelSpec]
    simp [levelSpec, hvp]
  have hn1 : procSampleNoWrap 0 4096 = 65536 := by
    simp only [procSampleNoWrap, hq1, truncQ_intCast]
  have hn2 : procSampleNoWrap 0 (-4096) = -65536 := by
    simp only [procSampleNoWrap, hq2, truncQ_intCast]
  have hvn : validProcsNoWrap [4096, -4096] = [65536, -65536] := by
    simp only [validProcsNoWrap, hdc, List.map_cons, List.map_nil, hn1, hn2]
    decide
  have h200 : levelSpecNoWrap [4096, -4096] = 200 := by
    simp only [levelSpecNoWrap, hvn]
    rw [if_neg (by decide)]
    have hs : ((([65536, -65536] : List ℤ).map (fun p => (p : ℚ) * p)).sum : ℚ)
        = 8589934592 := by norm_num
    rw [hs, show ((([65536, -65536] : List ℤ).length : ℕ) : ℝ) = 2 by norm_num,
        show ((8589934592 : ℚ) : ℝ) / 2 = 65536 ^ 2 by norm_num,
        Real.sqrt_sq (by norm_num : (0 : ℝ) ≤ 65536)]
    norm_num
  exact ⟨hl0, h200, by rw [hl0, h200]; norm_num⟩

/-- C3 (amended): for every non-empty block, the source's DC-removal + gain +
int16-narrowing + noise-gate loop produces exactly
`level = sqrt(sumSquares / validCount) / 32768 * 100` over the gate-surviving
narrowed samples (0 when none survive), and an all-zero block yields level 0
with the peak unchanged. -/
theorem C3_audio_level_formula (samples : List ℤ) (peak : ℝ)
    (_hne : samples ≠ []) (hpk : 0 ≤ peak) :
    audioLevel samples = levelSpec samples ∧
    ((∀ x ∈ samples, x = 0) →
      audioLevel samples = 0 ∧ peakUpdate peak (audioLevel samples) = peak) := by
  refine ⟨audioLevel_eq_levelSpec samples, fun hz => ?_⟩
  have hv := validProcs_all_zero samples hz
  have hl : audioLevel samples = 0 := by
    rw [audioLevel_eq_levelSpec]
    simp [levelSpec, hv]
  refine ⟨hl, ?_⟩
  rw [hl]
  unfold peakUpdate
  rw [if_neg (not_lt.mpr hpk)]

/-- C3 (witness): a concrete all-zero 4-sample block with prior peak 1. -/
theorem C3_witness :
    ([0, 0, 0, 0] : List ℤ) ≠ [] ∧ (0 : ℝ) ≤ 1 ∧
    (audioLevel [0, 0, 0, 0] = levelSpec [0, 0, 0, 0] ∧
      ((∀ x ∈ ([0, 0, 0, 0] : List ℤ), x = 0) →
        audioLevel [0, 0, 0, 0] = 0 ∧ peakUpdate 1 (audioLevel [0, 0, 0, 0]) = 1)) :=
  ⟨by decide, by norm_num, C3_audio_level_formula [0, 0, 0, 0] 1 (by decide) (by norm_num)⟩
